import Mathlib

/-!
Shallow embedding of the bgmcli session-and-synchronization engine.

Source files embedded: src/bgmcli/api/session.py and src/bgmcli/api/utils.py.
The document-extraction routines (BeautifulSoup scraping) are an external
collaborator per the specification; they are embedded as an abstract
`Extractor` record of pure functions from page text to primitive values,
where a `none` result stands for the exception the Python parser would
raise on an unparseable page.  The HTTP transport is embedded as an
`Oracle` mapping each issued `Request` to a `Response`; every operation
returns, next to its result, the ordered list of requests it issued.

The entity classes (collection.py, element.py) are not under src/; their
fields and legal status sets are modelled from the specification where
needed, as marked on the individual definitions.  Python object
back-references (an episode collection pointing at its containing subject
collection) are embedded as values: a subject collection owns the list of
its episode-collection entries, and a standalone episode collection
carries an optional copy of its parent, following the identifier-based
back-reference design prescribed by the specification.
-/

namespace Bgmcli

/-- Error classes raised by the Python code, one constructor per class
that the session layer can surface. -/
inductive PyErr where
  | typeError
  | attributeError
  | valueError
  | indexError
  | notLoggedInError
  | requestFailedError
deriving DecidableEq

/-- An HTTP response as the session code observes it: transport status
code and body text. -/
structure Response where
  status_code : Nat
  text : String
deriving DecidableEq

/-- A network request issued by the session: a GET of a url, or a POST of
a url with form data. -/
inductive Request where
  | get (url : String)
  | post (url : String) (data : List (String × String))
deriving DecidableEq

/-- The transport: maps each request to the response the remote service
returns for it. -/
def Oracle : Type := Request → Response

/-- BangumiEpisode, reduced to the identity field the session code reads. -/
structure BangumiEpisode where
  id_ : String
deriving DecidableEq

/-- BangumiSubject, reduced to the identity field the session code reads. -/
structure BangumiSubject where
  id_ : String
deriving DecidableEq

/-- An episode-collection entry as stored inside the ep_collections list
of its subject collection: the wrapped episode and the collection status.
The back-reference to the containing subject collection is represented by
the entry occurring in that list. -/
structure EpColl where
  episode : BangumiEpisode
  c_status : Option String
deriving DecidableEq

/-- BangumiSubjectCollection: the subject plus the status-ish mutable
fields and the ordered episode-collection entries.  Field set modelled
from the spec data model (collection.py is not under src/). -/
structure BangumiSubjectCollection where
  subject : BangumiSubject
  c_status : Option Nat
  rating : Option Nat
  tags : List String
  comment : String
  n_watched_eps : Option Nat
  ep_collections : List EpColl
deriving DecidableEq

/-- A BangumiEpisodeCollection as submitted to the session: the wrapped
episode, the status, and the optional back-reference to the containing
subject collection (absent for standalone fetches). -/
structure BangumiEpisodeCollection where
  episode : BangumiEpisode
  c_status : Option String
  sub_collection : Option BangumiSubjectCollection
deriving DecidableEq

/-- The closed variant over the two collection kinds, used where the
Python dispatches on isinstance. -/
inductive BangumiCollection where
  | sub (c : BangumiSubjectCollection)
  | ep (c : BangumiEpisodeCollection)
deriving DecidableEq

/-- A dummy subject collection entry produced by a listing page: the
extracted basic info of one list item plus the requested status. -/
structure DummyColl where
  info : String
  c_status : Nat
deriving DecidableEq

/-- The document-extraction collaborator: pure functions from raw page
text to primitive values.  A `none` result models the exception the
Python extractor raises when the page lacks the expected markup. -/
structure Extractor where
  user_id_from_html : String → Option String
  n_watched_eps_from_html : String → Option Nat
  n_pages_from_html : String → Option Nat
  dummy_items_from_html : String → Option (List String)
  ep_colls_from_html : String → Option (List EpColl)

/-- The mutable authentication state of a BangumiSession: the logged-in
flag plus the values cached at login (base url, anti-forgery token gh,
user id). -/
structure SessionState where
  logged_in : Bool
  base_url : String
  gh : String
  user_id : String
deriving DecidableEq

/-- Modelled from the spec: collection.py (not under src/) defines the
legal c_status enumeration of a subject collection as the five values
wish(1), collected(2), watching(3), on-hold(4), dropped(5). -/
def VALID_C_STATUS_SUB : List Nat := [1, 2, 3, 4, 5]

/-- Modelled from the spec: collection.py (not under src/) defines the
legal c_status enumeration of an episode collection as the queued/wish
status, the watched status, and the client-side watched_up_to directive. -/
def VALID_C_STATUS_EP : List String := ["queue", "watched", "watched_up_to"]

/-- The exact literal acknowledgement body the batch write endpoint
returns on success. -/
def ACK_BODY : String := "\x7b\"status\":\"ok\"\x7d"

/-- Python truthiness of an optional number: None and 0 are falsy. -/
def pyTruthyNat : Option Nat → Bool
  | none => false
  | some n => n != 0

/-- utils.check_response: a request counts as successful if the status
code is 200 and the user id is still extractable from the body (the
TypeError raised by a failed extraction is caught and turned into False). -/
def check_response (e : Extractor) (response : Response) : Bool :=
  if response.status_code != 200 then false
  else (e.user_id_from_html response.text).isSome

/-- BangumiSession._get behind the require_login decorator: issues the
GET only when logged in, otherwise raises NotLoggedInError without any
network traffic. -/
def session_get (s : SessionState) (o : Oracle) (url : String) :
    Except PyErr Response × List Request :=
  if s.logged_in then (.ok (o (.get url)), [.get url])
  else (.error .notLoggedInError, [])

/-- BangumiSession._post behind the require_login decorator: issues the
POST only when logged in, otherwise raises NotLoggedInError without any
network traffic. -/
def session_post (s : SessionState) (o : Oracle) (url : String)
    (data : List (String × String)) : Except PyErr Response × List Request :=
  if s.logged_in then (.ok (o (.post url data)), [.post url data])
  else (.error .notLoggedInError, [])

/-- Equality of episode-collection entries, as used by the prefix walk
in utils.get_ep_colls_up_to_this.  Modelled from the spec: collection.py
(not under src/) supplies the equality between the submitted episode
collection and the entries of the parent list; the spec identifies the
target by the entry itself, embedded here as agreement on the observable
fields (wrapped episode and status). -/
def ep_coll_matches (ep_coll : BangumiEpisodeCollection) (ep_c : EpColl) : Bool :=
  ep_c.episode == ep_coll.episode && ep_c.c_status == ep_coll.c_status

/-- The loop body of utils.get_ep_colls_up_to_this: walk the entries in
stored order, appending each one and stopping right after the first entry
equal to the target.  When no entry matches, the whole list is returned. -/
def ep_colls_up_to (ep_coll : BangumiEpisodeCollection) : List EpColl → List EpColl
  | [] => []
  | ep_c :: rest =>
    if ep_coll_matches ep_coll ep_c then [ep_c]
    else ep_c :: ep_colls_up_to ep_coll rest

/-- utils.get_ep_colls_up_to_this: the inclusive prefix of the parent
ep_collections up to the target entry. -/
def get_ep_colls_up_to_this (ep_coll : BangumiEpisodeCollection)
    (sub_coll : BangumiSubjectCollection) : List EpColl :=
  ep_colls_up_to ep_coll sub_coll.ep_collections

/-- The url of the batch set-watched endpoint, keyed on the base episode
id, as built in BangumiSession._set_watched_eps_in_sub. -/
def batch_set_url (s : SessionState) (base_ep_id : String) : String :=
  s.base_url ++ "/subject/ep/" ++ base_ep_id ++ "/status/watched?gh=" ++
    s.gh ++ "&ajax=1"

/-- The episode ids of a batch, in batch order. -/
def batch_ep_ids (ep_colls : List EpColl) : List String :=
  ep_colls.map fun ep_c => ep_c.episode.id_

/-- The batch write request built in BangumiSession._set_watched_eps_in_sub:
a POST keyed on the last episode id of the batch, carrying the full
comma-joined id list as form data. -/
def batch_request (s : SessionState) (ep_colls : List EpColl) : Request :=
  .post (batch_set_url s ((batch_ep_ids ep_colls).getLastD ("")))
    [("ep_id", String.intercalate (",") (batch_ep_ids ep_colls))]

/-- The GET of the subject main page, as issued by
BangumiSession._get_html_for_subject_main. -/
def subject_main_request (s : SessionState)
    (sub_coll : BangumiSubjectCollection) : Request :=
  .get (s.base_url ++ "/subject/" ++ sub_coll.subject.id_)

/-- BangumiSession._set_watched_eps_in_sub.  The Python indexes ep_colls[0]
(IndexError on an empty batch), checks that every entry belongs to the
same subject collection (the identity test on the object back-reference is
embedded as occurrence in the parent list), POSTs the batch keyed on the
last id, and treats the write as successful exactly when the status is 200
and the body is the literal acknowledgement; only then does it re-fetch the
subject main page, overwrite n_watched_eps with the freshly extracted
count, and set every entry of the batch prefix to watched.  In-place
mutation of the shared entry objects is embedded by rewriting the prefix of
the parent list of the corresponding length, which the batch is in the one
calling path (see lemma upto_is_take). -/
def set_watched_eps_in_sub (s : SessionState) (e : Extractor) (o : Oracle)
    (sub_coll : BangumiSubjectCollection) (ep_colls : List EpColl) :
    (Except PyErr Bool × List Request) × BangumiSubjectCollection :=
  if ep_colls.isEmpty then ((.error .indexError, []), sub_coll)
  else if !(ep_colls.all fun ep_c => decide (ep_c ∈ sub_coll.ep_collections)) then
    ((.error .valueError, []), sub_coll)
  else
    match session_post s o (batch_set_url s ((batch_ep_ids ep_colls).getLastD ("")))
        [("ep_id", String.intercalate (",") (batch_ep_ids ep_colls))] with
    | (.error err, tr) => ((.error err, tr), sub_coll)
    | (.ok response, tr) =>
      if response.status_code == 200 && response.text == ACK_BODY then
        match session_get s o (s.base_url ++ "/subject/" ++ sub_coll.subject.id_) with
        | (.error err, tr2) => ((.error err, tr ++ tr2), sub_coll)
        | (.ok resp2, tr2) =>
          match e.n_watched_eps_from_html resp2.text with
          | none => ((.error .typeError, tr ++ tr2), sub_coll)
          | some n =>
            let k := ep_colls.length
            ((.ok true, tr ++ tr2),
             { sub_coll with
               n_watched_eps := some n,
               ep_collections :=
                 (sub_coll.ep_collections.take k).map
                     (fun ep_c => { ep_c with c_status := some ("watched") }) ++
                   sub_coll.ep_collections.drop k })
      else ((.ok false, tr), sub_coll)

/-- The url of the single-episode status-set endpoint, as built in
BangumiSession.set_ep_collection. -/
def single_status_url (s : SessionState) (ep_id status : String) : String :=
  s.base_url ++ "/subject/ep/" ++ ep_id ++ "/status/" ++ status ++ "?gh=" ++ s.gh

/-- The GET request of the single-episode status-set endpoint. -/
def single_status_request (s : SessionState) (ep_id status : String) : Request :=
  .get (single_status_url s ep_id status)

/-- Decidable equality for Except values, needed to evaluate concrete
runs of the embedded operations. -/
instance exceptDecEq {ε α : Type} [DecidableEq ε] [DecidableEq α] :
    DecidableEq (Except ε α) := fun a b =>
  match a, b with
  | .error x, .error y =>
    if h : x = y then .isTrue (by rw [h])
    else .isFalse (fun hh => h (Except.error.inj hh))
  | .ok x, .ok y =>
    if h : x = y then .isTrue (by rw [h])
    else .isFalse (fun hh => h (Except.ok.inj hh))
  | .error _, .ok _ => .isFalse (fun hh => Except.noConfusion hh)
  | .ok _, .error _ => .isFalse (fun hh => Except.noConfusion hh)

/-- The outcome of BangumiSession.set_ep_collection: the returned (or
raised) value, the requests issued, and the updated containing subject
collection (the Python mutates it through the back-reference; absent when
the submitted episode collection has no parent). -/
structure EpSetResult where
  result : Except PyErr Bool
  trace : List Request
  sub_coll : Option BangumiSubjectCollection
deriving DecidableEq

/-- BangumiSession.set_ep_collection.  Python truthiness makes both an
unset status and an empty-string status hit the AttributeError branch;
a set status outside the legal enumeration hits the ValueError branch;
the watched_up_to directive requires a containing subject collection and
dispatches to the batch path; any other status issues one status-set GET
and, when a parent is present, overwrites its n_watched_eps with the count
freshly extracted from that same response, before returning
check_response. -/
def set_ep_collection (s : SessionState) (e : Extractor) (o : Oracle)
    (ep_coll : BangumiEpisodeCollection) : EpSetResult :=
  match ep_coll.c_status with
  | none => ⟨.error .attributeError, [], ep_coll.sub_collection⟩
  | some status =>
    if status.isEmpty then ⟨.error .attributeError, [], ep_coll.sub_collection⟩
    else if !(VALID_C_STATUS_EP.contains status) then
      ⟨.error .valueError, [], ep_coll.sub_collection⟩
    else if status == "watched_up_to" then
      match ep_coll.sub_collection with
      | none => ⟨.error .attributeError, [], none⟩
      | some sub_coll =>
        let out := set_watched_eps_in_sub s e o sub_coll
          (get_ep_colls_up_to_this ep_coll sub_coll)
        ⟨out.1.1, out.1.2, some out.2⟩
    else
      match session_get s o (single_status_url s ep_coll.episode.id_ status) with
      | (.error err, tr) => ⟨.error err, tr, ep_coll.sub_collection⟩
      | (.ok response, tr) =>
        match ep_coll.sub_collection with
        | some sub_coll =>
          match e.n_watched_eps_from_html response.text with
          | none => ⟨.error .typeError, tr, some sub_coll⟩
          | some n =>
            ⟨.ok (check_response e response), tr,
             some { sub_coll with n_watched_eps := some n }⟩
        | none => ⟨.ok (check_response e response), tr, none⟩

/-- BangumiSession.set_sub_collection.  Python truthiness makes both an
unset status and the value 0 hit the AttributeError branch; a nonzero
status outside the legal enumeration hits the ValueError branch; a valid
status POSTs the interest-update form and returns check_response. -/
def set_sub_collection (s : SessionState) (e : Extractor) (o : Oracle)
    (sub_coll : BangumiSubjectCollection) : Except PyErr Bool × List Request :=
  match sub_coll.c_status with
  | none => (.error .attributeError, [])
  | some status =>
    if status == 0 then (.error .attributeError, [])
    else if !(VALID_C_STATUS_SUB.contains status) then (.error .valueError, [])
    else
      match session_post s o
          (s.base_url ++ "/subject/" ++ sub_coll.subject.id_ ++
            "/interest/update?gh=" ++ s.gh)
          [("referer", "subject"), ("interest", toString status),
           ("rating", if pyTruthyNat sub_coll.rating
                      then toString (sub_coll.rating.getD 0) else ""),
           ("tags", String.intercalate (" ") sub_coll.tags),
           ("comment", sub_coll.comment), ("update", "保存")] with
      | (.error err, tr) => (.error err, tr)
      | (.ok response, tr) => (.ok (check_response e response), tr)

/-- The removal request for either collection kind, as built in
BangumiSession._remove_sub_collection and _remove_ep_collection. -/
def remove_request (s : SessionState) : BangumiCollection → Request
  | .sub c => .get (s.base_url ++ "/subject/" ++ c.subject.id_ ++ "/remove?gh=" ++ s.gh)
  | .ep c => .get (s.base_url ++ "/subject/ep/" ++ c.episode.id_ ++
      "/status/remove?gh=" ++ s.gh)

/-- Clearing the local c_status field of a collection, as done by the
unconditional assignment at the end of BangumiSession.remove_collection. -/
def clear_c_status : BangumiCollection → BangumiCollection
  | .sub c => .sub { c with c_status := none }
  | .ep c => .ep { c with c_status := none }

/-- BangumiSession.remove_collection: dispatch on the collection kind,
issue the removal GET, then clear the local c_status regardless of the
value check_response reports; only an exception out of the transport
guard skips the clearing (the assignment line is never reached). -/
def remove_collection (s : SessionState) (e : Extractor) (o : Oracle)
    (collection : BangumiCollection) :
    (Except PyErr Bool × List Request) × BangumiCollection :=
  match session_get s o (match remove_request s collection with
      | .get url => url
      | .post url _ => url) with
  | (.error err, tr) => ((.error err, tr), collection)
  | (.ok response, tr) =>
    ((.ok (check_response e response), tr), clear_c_status collection)

/-- BangumiSession._set_n_watched_eps: POST the numeric override form and
report check_response. -/
def set_n_watched_eps_post (s : SessionState) (e : Extractor) (o : Oracle)
    (sub_id : String) (n : Nat) : Except PyErr Bool × List Request :=
  match session_post s o (s.base_url ++ "/subject/set/watched/" ++ sub_id)
      [("referer", "subject"), ("submit", "更新"), ("watchedeps", toString n)] with
  | (.error err, tr) => (.error err, tr)
  | (.ok response, tr) => (.ok (check_response e response), tr)

/-- BangumiSession.set_n_watched_eps: reject c_status 1 with ValueError
and an unset count with AttributeError, both before any network call;
otherwise POST the override and, on reported success, re-fetch the episode
list page and rebuild ep_collections from it. -/
def set_n_watched_eps (s : SessionState) (e : Extractor) (o : Oracle)
    (sub_collection : BangumiSubjectCollection) :
    (Except PyErr Bool × List Request) × BangumiSubjectCollection :=
  if sub_collection.c_status == some 1 then ((.error .valueError, []), sub_collection)
  else
    match sub_collection.n_watched_eps with
    | none => ((.error .attributeError, []), sub_collection)
    | some n =>
      match set_n_watched_eps_post s e o sub_collection.subject.id_ n with
      | (.error err, tr) => ((.error err, tr), sub_collection)
      | (.ok false, tr) => ((.ok false, tr), sub_collection)
      | (.ok true, tr) =>
        match session_get s o
            (s.base_url ++ "/subject/" ++ sub_collection.subject.id_ ++ "/ep") with
        | (.error err, tr2) => ((.error err, tr ++ tr2), sub_collection)
        | (.ok resp, tr2) =>
          match e.ep_colls_from_html resp.text with
          | none => ((.error .typeError, tr ++ tr2), sub_collection)
          | some colls =>
            ((.ok true, tr ++ tr2),
             { sub_collection with ep_collections := colls })

/-- The textual slug the listing endpoint uses for each c_status, from
the c_status_map dictionary in BangumiSession.get_dummy_collections. -/
def c_status_text : Nat → String
  | 1 => "wish"
  | 2 => "collect"
  | 3 => "do"
  | 4 => "on_hold"
  | 5 => "dropped"
  | _ => ""

/-- Resolution of the optional user id argument: Python truthiness means
both an absent and an empty-string argument fall back to the id of the
session user. -/
def resolve_user_id (s : SessionState) : Option String → String
  | none => s.user_id
  | some u => if u.isEmpty then s.user_id else u

/-- The base url of a collection listing, as built in
BangumiSession.get_dummy_collections. -/
def dummy_list_url (s : SessionState) (sub_type : String)
    (user_id : Option String) (c_status : Nat) : String :=
  s.base_url ++ "/" ++ sub_type ++ "/list/" ++ resolve_user_id s user_id ++
    "/" ++ c_status_text c_status

/-- The GET of one listing page, as built in
BangumiSession._get_dummy_colls_on_page. -/
def dummy_page_request (url : String) (page : Nat) : Request :=
  .get (url ++ "?page=" ++ toString page)

/-- BangumiSession._get_dummy_colls_on_page: fetch one listing page, fail
the whole call with RequestFailedError on a non-200 status, otherwise
extract the list items and pair each with the requested c_status. -/
def get_dummy_colls_on_page (s : SessionState) (e : Extractor) (o : Oracle)
    (url : String) (page : Nat) (c_status : Nat) :
    Except PyErr (List DummyColl) × List Request :=
  match session_get s o (url ++ "?page=" ++ toString page) with
  | (.error err, tr) => (.error err, tr)
  | (.ok response, tr) =>
    if response.status_code != 200 then (.error .requestFailedError, tr)
    else
      match e.dummy_items_from_html response.text with
      | none => (.error .attributeError, tr)
      | some items => (.ok (items.map fun i => ⟨i, c_status⟩), tr)

/-- The page loop of BangumiSession.get_dummy_collections: fetch the given
pages in order, concatenating the extracted entries left to right; the
first raised error aborts the loop with no result. -/
def dummy_pages_loop (s : SessionState) (e : Extractor) (o : Oracle)
    (url : String) (c_status : Nat) :
    List Nat → Except PyErr (List DummyColl) × List Request
  | [] => (.ok [], [])
  | p :: rest =>
    match get_dummy_colls_on_page s e o url p c_status with
    | (.error err, tr) => (.error err, tr)
    | (.ok items, tr) =>
      match dummy_pages_loop s e o url c_status rest with
      | (.error err, tr2) => (.error err, tr ++ tr2)
      | (.ok more, tr2) => (.ok (items ++ more), tr ++ tr2)

/-- BangumiSession.get_dummy_collections: validate the subject type and
status arguments before any network call, resolve the user id and status
slug, fetch the listing url once to discover the page count, then fetch
pages 1 through that count in increasing order and concatenate their
entries. -/
def get_dummy_collections (s : SessionState) (e : Extractor) (o : Oracle)
    (sub_type : String) (c_status : Nat) (user_id : Option String) :
    Except PyErr (List DummyColl) × List Request :=
  if !(["anime", "book", "game", "real"].contains sub_type) then
    (.error .valueError, [])
  else if !((List.range' 1 5).contains c_status) then (.error .valueError, [])
  else
    match session_get s o (dummy_list_url s sub_type user_id c_status) with
    | (.error err, tr) => (.error err, tr)
    | (.ok response, tr) =>
      match e.n_pages_from_html response.text with
      | none => (.error .attributeError, tr)
      | some n_pages =>
        match dummy_pages_loop s e o (dummy_list_url s sub_type user_id c_status)
            c_status (List.range' 1 n_pages) with
        | (.error err, tr2) => (.error err, tr ++ tr2)
        | (.ok colls, tr2) => (.ok colls, tr ++ tr2)

/-- BangumiSession.logout, behind the require_login decorator: when
authenticated, clear the logged-in flag and then issue the logout GET
through the raw transport; otherwise raise NotLoggedInError with no
traffic.  The LoggedOut state is terminal. -/
def logout (s : SessionState) (_o : Oracle) :
    (Except PyErr Unit × List Request) × SessionState :=
  if s.logged_in then
    ((.ok (), [.get (s.base_url ++ "/logout/" ++ s.gh)]),
     { s with logged_in := false })
  else ((.error .notLoggedInError, []), s)

/-- The operations of the engine that route network traffic through the
session, with their arguments. -/
inductive Op where
  | setSubColl (c : BangumiSubjectCollection)
  | setEpColl (c : BangumiEpisodeCollection)
  | removeColl (c : BangumiCollection)
  | setNWatched (c : BangumiSubjectCollection)
  | getDummy (sub_type : String) (c_status : Nat) (user_id : Option String)
  | doLogout

/-- One uniform dispatcher over the embedded operations, reporting the
outcome erased to Unit, the issued requests, and the session state after
the call.  Only logout writes the session state; no operation ever sets
the logged-in flag. -/
def run_op (s : SessionState) (e : Extractor) (o : Oracle) :
    Op → (Except PyErr Unit × List Request) × SessionState
  | .setSubColl c =>
    ((( set_sub_collection s e o c).1.map fun _ => (),
      (set_sub_collection s e o c).2), s)
  | .setEpColl c =>
    (((set_ep_collection s e o c).result.map fun _ => (),
      (set_ep_collection s e o c).trace), s)
  | .removeColl c =>
    (((remove_collection s e o c).1.1.map fun _ => (),
      (remove_collection s e o c).1.2), s)
  | .setNWatched c =>
    (((set_n_watched_eps s e o c).1.1.map fun _ => (),
      (set_n_watched_eps s e o c).1.2), s)
  | .getDummy sub_type c_status user_id =>
    (((get_dummy_collections s e o sub_type c_status user_id).1.map fun _ => (),
      (get_dummy_collections s e o sub_type c_status user_id).2), s)
  | .doLogout => logout s o

/-- Whether an Except value is a raised error. -/
def isErr {ε α : Type} : Except ε α → Bool
  | .error _ => true
  | .ok _ => false

/-- The concatenation of the per-page entry lists over a list of page
numbers, in list order. -/
def pages_concat (f : Nat → List DummyColl) : List Nat → List DummyColl
  | [] => []
  | p :: rest => f p ++ pages_concat f rest

/-- An authenticated session state used for the concrete runs below. -/
def fxState : SessionState := ⟨true, "http://bgm.tv", "g", "u1"⟩

/-- A session state after logout, used for the concrete runs below. -/
def fxStateOut : SessionState := ⟨false, "http://bgm.tv", "g", "u1"⟩

/-- First episode-collection entry of the concrete subject collection. -/
def fxEp1 : EpColl := ⟨⟨"1"⟩, some ("watched")⟩

/-- Second episode-collection entry of the concrete subject collection;
it carries the watched_up_to directive the caller just set on it. -/
def fxEp2 : EpColl := ⟨⟨"2"⟩, some ("watched_up_to")⟩

/-- A concrete subject collection with two episode entries. -/
def fxSub : BangumiSubjectCollection :=
  ⟨⟨"7"⟩, some 3, none, [], "", some 1, [fxEp1, fxEp2]⟩

/-- The watched-up-to target: the second entry of fxSub, as submitted. -/
def fxTarget : BangumiEpisodeCollection :=
  ⟨⟨"2"⟩, some ("watched_up_to"), some fxSub⟩

/-- A watched-up-to submission whose episode occurs nowhere in the parent
list. -/
def fxT3 : BangumiEpisodeCollection :=
  ⟨⟨"99"⟩, some ("watched_up_to"), some fxSub⟩

/-- A single-episode submission with the concrete watched status and a
parent subject collection. -/
def fxT4 : BangumiEpisodeCollection := ⟨⟨"9"⟩, some ("watched"), some fxSub⟩

/-- A watched-up-to submission with no containing subject collection. -/
def fxT6 : BangumiEpisodeCollection := ⟨⟨"2"⟩, some ("watched_up_to"), none⟩

/-- A subject collection whose c_status holds the out-of-range value 0. -/
def fxSubZero : BangumiSubjectCollection :=
  ⟨⟨"7"⟩, some 0, none, [], "", some 1, []⟩

/-- A subject collection with a valid status but no watched count. -/
def fxSubNoN : BangumiSubjectCollection :=
  ⟨⟨"7"⟩, some 3, none, [], "", none, []⟩

/-- A subject collection in the wish status. -/
def fxSubWish : BangumiSubjectCollection :=
  ⟨⟨"7"⟩, some 1, none, [], "", some 1, []⟩

/-- A subject collection whose c_status holds the out-of-range value 6. -/
def fxSubSix : BangumiSubjectCollection :=
  ⟨⟨"7"⟩, some 6, none, [], "", some 1, []⟩

/-- A concrete extractor: the user id parses on every page except the
page text badpage; the watched count parses as 5 on the subject main page
and as 7 on the single status-set response; the listing index reports two
pages whose items are known. -/
def fxE : Extractor :=
  ⟨fun t => if t = ("badpage") then none else some ("u1"),
   fun t =>
     if t = ("mainpage") then some 5
     else if t = ("single") then some 7
     else none,
   fun t => if t = ("idx") then some 2 else none,
   fun t =>
     if t = ("p1") then some [("a1"), ("a2")]
     else if t = ("p2") then some [("b1")]
     else none,
   fun _ => some []⟩

/-- An oracle that acknowledges every batch POST with the literal body
and serves the subject main page for every GET. -/
def fxO1 : Oracle := fun r =>
  match r with
  | .post _ _ => ⟨200, ACK_BODY⟩
  | .get _ => ⟨200, "mainpage"⟩

/-- An oracle that rejects every batch POST with a 200 status but a
non-acknowledgement body. -/
def fxO2 : Oracle := fun r =>
  match r with
  | .post _ _ => ⟨200, "nope"⟩
  | .get _ => ⟨200, "mainpage"⟩

/-- An oracle whose every response has transport status 500 and a body on
which the watched count still parses. -/
def fxO4 : Oracle := fun _ => ⟨500, "single"⟩

/-- An oracle whose every response is a 404 with a body on which the user
id does not parse. -/
def fxO8 : Oracle := fun _ => ⟨404, "badpage"⟩

/-- An oracle serving a three-request listing: the index url and two
numbered pages. -/
def fxO9 : Oracle := fun r =>
  match r with
  | .get u =>
    if u = ("http://bgm.tv/anime/list/u1/do") then ⟨200, "idx"⟩
    else if u = ("http://bgm.tv/anime/list/u1/do?page=1") then ⟨200, "p1"⟩
    else if u = ("http://bgm.tv/anime/list/u1/do?page=2") then ⟨200, "p2"⟩
    else ⟨404, ""⟩
  | .post _ _ => ⟨404, ""⟩

/-- An oracle serving the same listing but failing page 2 with a 500. -/
def fxO9b : Oracle := fun r =>
  match r with
  | .get u =>
    if u = ("http://bgm.tv/anime/list/u1/do") then ⟨200, "idx"⟩
    else if u = ("http://bgm.tv/anime/list/u1/do?page=1") then ⟨200, "p1"⟩
    else if u = ("http://bgm.tv/anime/list/u1/do?page=2") then ⟨500, "p2"⟩
    else ⟨404, ""⟩
  | .post _ _ => ⟨404, ""⟩

lemma upto_is_take (t : BangumiEpisodeCollection) :
    ∀ l : List EpColl, ep_colls_up_to t l = l.take (ep_colls_up_to t l).length := by
  intro l
  induction l with
  | nil => rfl
  | cons a rest ih =>
    by_cases hm : ep_coll_matches t a = true
    · simp [ep_colls_up_to, hm]
    · simp only [ep_colls_up_to, Bool.not_eq_true] at hm ⊢
      simp only [hm, Bool.false_eq_true, if_false, List.length_cons,
        List.take_succ_cons, List.cons.injEq, true_and]
      exact ih

lemma upto_mem (t : BangumiEpisodeCollection) (l : List EpColl) :
    ∀ x ∈ ep_colls_up_to t l, x ∈ l := by
  intro x hx
  rw [upto_is_take t l] at hx
  exact List.take_subset _ _ hx

lemma upto_decomp (t : BangumiEpisodeCollection) :
    ∀ l : List EpColl, l.any (ep_coll_matches t) = true →
      ∃ l1 x l2, l = l1 ++ x :: l2 ∧ ep_coll_matches t x = true ∧
        (∀ y ∈ l1, ep_coll_matches t y = false) ∧
        ep_colls_up_to t l = l1 ++ [x] := by
  intro l
  induction l with
  | nil => intro h; simp at h
  | cons a rest ih =>
    intro h
    by_cases hm : ep_coll_matches t a = true
    · exact ⟨[], a, rest, by simp, hm, by simp, by simp [ep_colls_up_to, hm]⟩
    · have hb : ep_coll_matches t a = false := by
        simpa using hm
      have h2 : rest.any (ep_coll_matches t) = true := by
        simpa [List.any_cons, hb] using h
      obtain ⟨l1, x, l2, he, hx, hl1, hr⟩ := ih h2
      refine ⟨a :: l1, x, l2, by simp [he], hx, ?_, ?_⟩
      · intro y hy
        rcases List.mem_cons.mp hy with rfl | hy2
        · exact hb
        · exact hl1 y hy2
      · simp [ep_colls_up_to, hb, hr]

lemma upto_ne_nil (t : BangumiEpisodeCollection) (l : List EpColl)
    (h : l.any (ep_coll_matches t) = true) : ep_colls_up_to t l ≠ [] := by
  obtain ⟨l1, x, l2, _, _, _, hr⟩ := upto_decomp t l h
  rw [hr]
  simp

lemma swes_not_ack (s : SessionState) (e : Extractor) (o : Oracle)
    (sub_coll : BangumiSubjectCollection) (ep_colls : List EpColl)
    (hne : ep_colls ≠ [])
    (hmem : ∀ x ∈ ep_colls, x ∈ sub_coll.ep_collections)
    (hli : s.logged_in = true)
    (hack : ¬((o (batch_request s ep_colls)).status_code = 200 ∧
        (o (batch_request s ep_colls)).text = ACK_BODY)) :
    set_watched_eps_in_sub s e o sub_coll ep_colls =
      ((.ok false, [batch_request s ep_colls]), sub_coll) := by
  have hemp : ep_colls.isEmpty = false := by
    cases ep_colls with
    | nil => exact absurd rfl hne
    | cons a l => rfl
  have hall : (ep_colls.all fun ep_c =>
      decide (ep_c ∈ sub_coll.ep_collections)) = true := by
    rw [List.all_eq_true]
    intro x hx
    simpa using hmem x hx
  have hc : ((o (batch_request s ep_colls)).status_code == 200 &&
      (o (batch_request s ep_colls)).text == ACK_BODY) = false := by
    rcases Decidable.em ((o (batch_request s ep_colls)).status_code = 200) with h1 | h1
    · have h2 : (o (batch_request s ep_colls)).text ≠ ACK_BODY :=
        fun hh => hack ⟨h1, hh⟩
      simp [h1, h2]
    · simp [h1]
  simp only [batch_request, List.getLastD_eq_getLast?] at hc
  simp [set_watched_eps_in_sub, hemp, hall, session_post, hli, hc, batch_request]

lemma swes_ack (s : SessionState) (e : Extractor) (o : Oracle)
    (sub_coll : BangumiSubjectCollection) (ep_colls : List EpColl)
    (hne : ep_colls ≠ [])
    (hmem : ∀ x ∈ ep_colls, x ∈ sub_coll.ep_collections)
    (hli : s.logged_in = true)
    (h200 : (o (batch_request s ep_colls)).status_code = 200)
    (hbody : (o (batch_request s ep_colls)).text = ACK_BODY)
    (n : Nat)
    (hex : e.n_watched_eps_from_html
        (o (subject_main_request s sub_coll)).text = some n) :
    set_watched_eps_in_sub s e o sub_coll ep_colls =
      ((.ok true, [batch_request s ep_colls, subject_main_request s sub_coll]),
       { sub_coll with
         n_watched_eps := some n,
         ep_collections :=
           (sub_coll.ep_collections.take ep_colls.length).map
               (fun ep_c => { ep_c with c_status := some ("watched") }) ++
             sub_coll.ep_collections.drop ep_colls.length }) := by
  have hemp : ep_colls.isEmpty = false := by
    cases ep_colls with
    | nil => exact absurd rfl hne
    | cons a l => rfl
  have hall : (ep_colls.all fun ep_c =>
      decide (ep_c ∈ sub_coll.ep_collections)) = true := by
    rw [List.all_eq_true]
    intro x hx
    simpa using hmem x hx
  have hc : ((o (batch_request s ep_colls)).status_code == 200 &&
      (o (batch_request s ep_colls)).text == ACK_BODY) = true := by
    simp [h200, hbody]
  simp only [batch_request, List.getLastD_eq_getLast?] at hc
  simp only [subject_main_request] at hex
  simp [set_watched_eps_in_sub, hemp, hall, session_post, session_get, hli, hc,
    hex, batch_request, subject_main_request]

lemma sec_watched_up_to (s : SessionState) (e : Extractor) (o : Oracle)
    (ep_coll : BangumiEpisodeCollection) (sub_coll : BangumiSubjectCollection)
    (h2 : ep_coll.c_status = some ("watched_up_to"))
    (h3 : ep_coll.sub_collection = some sub_coll) :
    set_ep_collection s e o ep_coll =
      ⟨(set_watched_eps_in_sub s e o sub_coll
          (get_ep_colls_up_to_this ep_coll sub_coll)).1.1,
       (set_watched_eps_in_sub s e o sub_coll
          (get_ep_colls_up_to_this ep_coll sub_coll)).1.2,
       some (set_watched_eps_in_sub s e o sub_coll
          (get_ep_colls_up_to_this ep_coll sub_coll)).2⟩ := by
  have hA : (("watched_up_to") : String).isEmpty = false := by decide
  have hB : VALID_C_STATUS_EP.contains ("watched_up_to") = true := by decide
  have hB2 : ("watched_up_to" : String) ∈ VALID_C_STATUS_EP := by decide
  simp [set_ep_collection, h2, h3, hA, hB, hB2]

lemma swes_ack_noext (s : SessionState) (e : Extractor) (o : Oracle)
    (sub_coll : BangumiSubjectCollection) (ep_colls : List EpColl)
    (hne : ep_colls ≠ [])
    (hmem : ∀ x ∈ ep_colls, x ∈ sub_coll.ep_collections)
    (hli : s.logged_in = true)
    (h200 : (o (batch_request s ep_colls)).status_code = 200)
    (hbody : (o (batch_request s ep_colls)).text = ACK_BODY)
    (hex : e.n_watched_eps_from_html
        (o (subject_main_request s sub_coll)).text = none) :
    set_watched_eps_in_sub s e o sub_coll ep_colls =
      ((.error .typeError,
        [batch_request s ep_colls, subject_main_request s sub_coll]), sub_coll) := by
  have hemp : ep_colls.isEmpty = false := by
    cases ep_colls with
    | nil => exact absurd rfl hne
    | cons a l => rfl
  have hall : (ep_colls.all fun ep_c =>
      decide (ep_c ∈ sub_coll.ep_collections)) = true := by
    rw [List.all_eq_true]
    intro x hx
    simpa using hmem x hx
  have hc : ((o (batch_request s ep_colls)).status_code == 200 &&
      (o (batch_request s ep_colls)).text == ACK_BODY) = true := by
    simp [h200, hbody]
  simp only [batch_request, List.getLastD_eq_getLast?] at hc
  simp only [subject_main_request] at hex
  simp [set_watched_eps_in_sub, hemp, hall, session_post, session_get, hli, hc,
    hex, batch_request, subject_main_request]

lemma swes_trace_head (s : SessionState) (e : Extractor) (o : Oracle)
    (sub_coll : BangumiSubjectCollection) (ep_colls : List EpColl)
    (hne : ep_colls ≠ [])
    (hmem : ∀ x ∈ ep_colls, x ∈ sub_coll.ep_collections)
    (hli : s.logged_in = true) :
    ((set_watched_eps_in_sub s e o sub_coll ep_colls).1.2).head? =
      some (batch_request s ep_colls) := by
  rcases Decidable.em ((o (batch_request s ep_colls)).status_code = 200 ∧
      (o (batch_request s ep_colls)).text = ACK_BODY) with hack | hack
  · cases hex : e.n_watched_eps_from_html
        (o (subject_main_request s sub_coll)).text with
    | none =>
      rw [swes_ack_noext s e o sub_coll ep_colls hne hmem hli hack.1 hack.2 hex]
      rfl
    | some n =>
      rw [swes_ack s e o sub_coll ep_colls hne hmem hli hack.1 hack.2 n hex]
      rfl
  · rw [swes_not_ack s e o sub_coll ep_colls hne hmem hli hack]
    rfl

/-- C1: for every watched-up-to batch submission, the write is treated as
successful iff the transport status is 200 and the response body is the
exact literal acknowledgement; on success the subject main page is
re-fetched, n_watched_eps on the parent is overwritten with the freshly
extracted count, every episode collection in the prefix gets c_status
watched, and True is returned; on any other status or body, False is
returned and no local field of any entity is mutated. -/
theorem C1_batch_ack_success_iff (s : SessionState) (e : Extractor) (o : Oracle)
    (sub_coll : BangumiSubjectCollection) (ep_coll : BangumiEpisodeCollection)
    (h1 : s.logged_in = true)
    (h2 : ep_coll.c_status = some ("watched_up_to"))
    (h3 : ep_coll.sub_collection = some sub_coll)
    (h4 : sub_coll.ep_collections.any (ep_coll_matches ep_coll) = true)
    (n : Nat)
    (h5 : e.n_watched_eps_from_html
        (o (subject_main_request s sub_coll)).text = some n) :
    ((o (batch_request s (get_ep_colls_up_to_this ep_coll sub_coll))).status_code = 200 ∧
        (o (batch_request s (get_ep_colls_up_to_this ep_coll sub_coll))).text = ACK_BODY →
      set_ep_collection s e o ep_coll =
        ⟨.ok true,
         [batch_request s (get_ep_colls_up_to_this ep_coll sub_coll),
          subject_main_request s sub_coll],
         some { sub_coll with
                n_watched_eps := some n,
                ep_collections :=
                  (sub_coll.ep_collections.take
                        (get_ep_colls_up_to_this ep_coll sub_coll).length).map
                      (fun ep_c => { ep_c with c_status := some ("watched") }) ++
                    sub_coll.ep_collections.drop
                      (get_ep_colls_up_to_this ep_coll sub_coll).length }⟩) ∧
    (¬((o (batch_request s (get_ep_colls_up_to_this ep_coll sub_coll))).status_code = 200 ∧
        (o (batch_request s (get_ep_colls_up_to_this ep_coll sub_coll))).text = ACK_BODY) →
      set_ep_collection s e o ep_coll =
        ⟨.ok false, [batch_request s (get_ep_colls_up_to_this ep_coll sub_coll)],
         some sub_coll⟩) ∧
    ((set_ep_collection s e o ep_coll).result = .ok true ↔
      ((o (batch_request s (get_ep_colls_up_to_this ep_coll sub_coll))).status_code = 200 ∧
        (o (batch_request s (get_ep_colls_up_to_this ep_coll sub_coll))).text = ACK_BODY)) := by
  have hne : get_ep_colls_up_to_this ep_coll sub_coll ≠ [] :=
    upto_ne_nil ep_coll sub_coll.ep_collections h4
  have hmem : ∀ x ∈ get_ep_colls_up_to_this ep_coll sub_coll,
      x ∈ sub_coll.ep_collections := upto_mem ep_coll sub_coll.ep_collections
  have hsec := sec_watched_up_to s e o ep_coll sub_coll h2 h3
  refine ⟨?_, ?_, ?_, ?_⟩
  · intro hack
    have hs := swes_ack s e o sub_coll _ hne hmem h1 hack.1 hack.2 n h5
    rw [hsec, hs]
  · intro hack
    have hs := swes_not_ack s e o sub_coll _ hne hmem h1 hack
    rw [hsec, hs]
  · intro hok
    by_contra hack
    have hs := swes_not_ack s e o sub_coll _ hne hmem h1 hack
    rw [hsec] at hok
    simp only [hs] at hok
    simp at hok
  · intro hack
    have hs := swes_ack s e o sub_coll _ hne hmem h1 hack.1 hack.2 n h5
    rw [hsec]
    simp only [hs]

/-- C1 witness: a concrete acknowledged batch run taking the truth of
every hypothesis at the fixture inputs. -/
theorem C1_witness :
    set_ep_collection fxState fxE fxO1 fxTarget =
      ⟨.ok true,
       [batch_request fxState (get_ep_colls_up_to_this fxTarget fxSub),
        subject_main_request fxState fxSub],
       some { fxSub with
              n_watched_eps := some 5,
              ep_collections :=
                (fxSub.ep_collections.take
                      (get_ep_colls_up_to_this fxTarget fxSub).length).map
                    (fun ep_c => { ep_c with c_status := some ("watched") }) ++
                  fxSub.ep_collections.drop
                    (get_ep_colls_up_to_this fxTarget fxSub).length }⟩ :=
  (C1_batch_ack_success_iff fxState fxE fxO1 fxSub fxTarget rfl rfl rfl
    (by decide) 5 (by decide)).1 (by decide)

/-- C2: for every subject collection whose entry list contains the
watched-up-to target, the derived batch is exactly the inclusive prefix
from the first entry up to and including the target in stored order, and
the issued batch write is keyed on the id of the last episode of that
prefix, which is the id of the target episode. -/
theorem C2_batch_upto_target (s : SessionState) (e : Extractor) (o : Oracle)
    (sub_coll : BangumiSubjectCollection) (ep_coll : BangumiEpisodeCollection)
    (h1 : s.logged_in = true)
    (h2 : ep_coll.c_status = some ("watched_up_to"))
    (h3 : ep_coll.sub_collection = some sub_coll)
    (h4 : sub_coll.ep_collections.any (ep_coll_matches ep_coll) = true) :
    ∃ l1 x l2, sub_coll.ep_collections = l1 ++ x :: l2 ∧
      ep_coll_matches ep_coll x = true ∧
      (∀ y ∈ l1, ep_coll_matches ep_coll y = false) ∧
      get_ep_colls_up_to_this ep_coll sub_coll = l1 ++ [x] ∧
      x.episode.id_ = ep_coll.episode.id_ ∧
      (set_ep_collection s e o ep_coll).trace.head? =
        some (batch_request s (l1 ++ [x])) := by
  obtain ⟨l1, x, l2, he, hx, hl1, hr⟩ :=
    upto_decomp ep_coll sub_coll.ep_collections h4
  have hr' : get_ep_colls_up_to_this ep_coll sub_coll = l1 ++ [x] := hr
  have hid : x.episode.id_ = ep_coll.episode.id_ := by
    have hxx := hx
    simp only [ep_coll_matches, Bool.and_eq_true, beq_iff_eq] at hxx
    rw [hxx.1]
  have hne : get_ep_colls_up_to_this ep_coll sub_coll ≠ [] :=
    upto_ne_nil ep_coll sub_coll.ep_collections h4
  have hmem : ∀ y ∈ get_ep_colls_up_to_this ep_coll sub_coll,
      y ∈ sub_coll.ep_collections := upto_mem ep_coll sub_coll.ep_collections
  refine ⟨l1, x, l2, he, hx, hl1, hr', hid, ?_⟩
  rw [← hr', sec_watched_up_to s e o ep_coll sub_coll h2 h3]
  exact swes_trace_head s e o sub_coll _ hne hmem h1

/-- C2 witness: the concrete decomposition and keyed request at the
fixture inputs. -/
theorem C2_witness :
    ∃ l1 x l2, fxSub.ep_collections = l1 ++ x :: l2 ∧
      ep_coll_matches fxTarget x = true ∧
      (∀ y ∈ l1, ep_coll_matches fxTarget y = false) ∧
      get_ep_colls_up_to_this fxTarget fxSub = l1 ++ [x] ∧
      x.episode.id_ = fxTarget.episode.id_ ∧
      (set_ep_collection fxState fxE fxO1 fxTarget).trace.head? =
        some (batch_request fxState (l1 ++ [x])) :=
  C2_batch_upto_target fxState fxE fxO1 fxSub fxTarget rfl rfl rfl (by decide)

/-- C3: the claim says a watched-up-to submission whose target is absent
from the parent entry list must fail with no batch write derived.  The
code instead derives the batch as the entire entry list, issues the write
keyed on the final episode of the list, and on acknowledgement marks every
episode of the subject watched: here the target episode 99 occurs nowhere
in the parent, yet the call returns True after posting the batch 1,2 keyed
on episode 2 and mutating both entries. -/
theorem C3_missing_target_batches_everything :
    fxSub.ep_collections.any (ep_coll_matches fxT3) = false ∧
    set_ep_collection fxState fxE fxO1 fxT3 =
      ⟨.ok true,
       [.post ("http://bgm.tv/subject/ep/2/status/watched?gh=g&ajax=1")
          [("ep_id", "1,2")],
        .get ("http://bgm.tv/subject/7")],
       some ⟨⟨"7"⟩, some 3, none, [], "", some 5,
             [⟨⟨"1"⟩, some ("watched")⟩, ⟨⟨"2"⟩, some ("watched")⟩]⟩⟩ := by
  decide

/-- C6: for every watched-up-to submission without a containing subject
collection, the call raises AttributeError and issues no network
request. -/
theorem C6_missing_parent_attribute_error (s : SessionState) (e : Extractor)
    (o : Oracle) (ep_coll : BangumiEpisodeCollection)
    (h2 : ep_coll.c_status = some ("watched_up_to"))
    (h3 : ep_coll.sub_collection = none) :
    set_ep_collection s e o ep_coll = ⟨.error .attributeError, [], none⟩ := by
  have hA : (("watched_up_to") : String).isEmpty = false := by decide
  have hB : VALID_C_STATUS_EP.contains ("watched_up_to") = true := by decide
  have hB2 : ("watched_up_to" : String) ∈ VALID_C_STATUS_EP := by decide
  simp [set_ep_collection, h2, h3, hA, hB, hB2]

/-- C6 witness: the concrete missing-parent run. -/
theorem C6_witness :
    set_ep_collection fxState fxE fxO1 fxT6 = ⟨.error .attributeError, [], none⟩ :=
  C6_missing_parent_attribute_error fxState fxE fxO1 fxT6 rfl rfl

lemma contains_false_of_not_mem {α : Type} [BEq α] [LawfulBEq α]
    (l : List α) (a : α) (h : a ∉ l) : l.contains a = false := by
  cases hc : l.contains a
  · rfl
  · exact absurd (List.mem_of_elem_eq_true hc) h

/-- C4 counterexample: on the single-episode path the code overwrites the
parent n_watched_eps with the count parsed from the status-set response
even when the write is reported failed.  Here the transport answers 500,
the call returns False, and n_watched_eps still changes from 1 to 7. -/
theorem C4_counterexample :
    (set_ep_collection fxState fxE fxO4 fxT4).result = .ok false ∧
    (set_ep_collection fxState fxE fxO4 fxT4).sub_coll =
      some { fxSub with n_watched_eps := some 7 } ∧
    fxSub.n_watched_eps = some 1 ∧ ¬((1 : Nat) = 7) := by
  decide

/-- C4 amended: n_watched_eps is never computed locally; every assignment
writes a value freshly extracted from a server response.  On the single
episode path the overwrite comes from the response of the status-set
request itself regardless of the reported success; on the batch path the
parent is untouched whenever the acknowledgement is absent; and the
numeric-override operation never rewrites the field at all. -/
theorem C4_fresh_parse_amended (s : SessionState) (e : Extractor) (o : Oracle) :
    (∀ (ep_coll : BangumiEpisodeCollection) (sub_coll : BangumiSubjectCollection)
        (st : String) (n : Nat),
      s.logged_in = true →
      ep_coll.c_status = some st →
      st.isEmpty = false →
      VALID_C_STATUS_EP.contains st = true →
      ¬(st = "watched_up_to") →
      ep_coll.sub_collection = some sub_coll →
      e.n_watched_eps_from_html
          (o (single_status_request s ep_coll.episode.id_ st)).text = some n →
      (set_ep_collection s e o ep_coll).sub_coll =
        some { sub_coll with n_watched_eps := some n }) ∧
    (∀ (ep_coll : BangumiEpisodeCollection) (sub_coll : BangumiSubjectCollection),
      s.logged_in = true →
      ep_coll.c_status = some ("watched_up_to") →
      ep_coll.sub_collection = some sub_coll →
      sub_coll.ep_collections.any (ep_coll_matches ep_coll) = true →
      ¬((o (batch_request s (get_ep_colls_up_to_this ep_coll sub_coll))).status_code = 200 ∧
        (o (batch_request s (get_ep_colls_up_to_this ep_coll sub_coll))).text = ACK_BODY) →
      (set_ep_collection s e o ep_coll).sub_coll = some sub_coll) ∧
    (∀ sub_collection : BangumiSubjectCollection,
      ((set_n_watched_eps s e o sub_collection).2).n_watched_eps =
        sub_collection.n_watched_eps) := by
  refine ⟨?_, ?_, ?_⟩
  · intro ep_coll sub_coll st n h1 h2 hnemp hval hnw h3 hex
    have hbeq : (st == "watched_up_to") = false := by simp [hnw]
    have hval2 : st ∈ VALID_C_STATUS_EP := List.mem_of_elem_eq_true hval
    simp only [single_status_request, single_status_url] at hex
    simp [set_ep_collection, h2, hnemp, hval, hval2, hbeq, session_get, h1,
      single_status_url, h3, hex]
  · intro ep_coll sub_coll h1 h2 h3 h4 hack
    have hne : get_ep_colls_up_to_this ep_coll sub_coll ≠ [] :=
      upto_ne_nil ep_coll sub_coll.ep_collections h4
    have hmem : ∀ x ∈ get_ep_colls_up_to_this ep_coll sub_coll,
        x ∈ sub_coll.ep_collections := upto_mem ep_coll sub_coll.ep_collections
    rw [sec_watched_up_to s e o ep_coll sub_coll h2 h3,
      swes_not_ack s e o sub_coll _ hne hmem h1 hack]
  · intro c
    unfold set_n_watched_eps
    repeat' split
    all_goals rfl

/-- C5 counterexample: a subject collection whose stored status is the
out-of-range value 0 is outside the legal enumeration but, being falsy in
Python, hits the AttributeError branch rather than the ValueError branch
the claim requires. -/
theorem C5_counterexample :
    fxSubZero.c_status = some 0 ∧ (0 : Nat) ∉ VALID_C_STATUS_SUB ∧
    set_sub_collection fxState fxE fxO1 fxSubZero = (.error .attributeError, []) ∧
    ¬(set_sub_collection fxState fxE fxO1 fxSubZero = (.error .valueError, [])) := by
  decide

/-- C5 amended: before any network request, an unset or Python-falsy
status (absent, the number 0 on a subject collection, the empty string on
an episode collection) raises AttributeError, and a set truthy status
outside the legal enumeration of the collection kind raises ValueError. -/
theorem C5_validation_amended (s : SessionState) (e : Extractor) (o : Oracle) :
    (∀ sub_coll : BangumiSubjectCollection,
      sub_coll.c_status = none ∨ sub_coll.c_status = some 0 →
      set_sub_collection s e o sub_coll = (.error .attributeError, [])) ∧
    (∀ (sub_coll : BangumiSubjectCollection) (v : Nat),
      sub_coll.c_status = some v → ¬(v = 0) → v ∉ VALID_C_STATUS_SUB →
      set_sub_collection s e o sub_coll = (.error .valueError, [])) ∧
    (∀ ep_coll : BangumiEpisodeCollection,
      ep_coll.c_status = none ∨ ep_coll.c_status = some ("") →
      (set_ep_collection s e o ep_coll).result = .error .attributeError ∧
      (set_ep_collection s e o ep_coll).trace = []) ∧
    (∀ (ep_coll : BangumiEpisodeCollection) (st : String),
      ep_coll.c_status = some st → st.isEmpty = false → st ∉ VALID_C_STATUS_EP →
      (set_ep_collection s e o ep_coll).result = .error .valueError ∧
      (set_ep_collection s e o ep_coll).trace = []) := by
  refine ⟨?_, ?_, ?_, ?_⟩
  · intro c h
    rcases h with h | h
    · simp [set_sub_collection, h]
    · simp [set_sub_collection, h]
  · intro c v hv h0 hnv
    have hb : (v == 0) = false := by simp [h0]
    have hnc : VALID_C_STATUS_SUB.contains v = false :=
      contains_false_of_not_mem _ _ hnv
    simp [set_sub_collection, hv, hb, hnc, hnv]
  · intro c h
    rcases h with h | h
    · simp [set_ep_collection, h]
    · have hemp : (("") : String).isEmpty = true := rfl
      simp [set_ep_collection, h, hemp]
  · intro c st hst hemp hnv
    have hnc : VALID_C_STATUS_EP.contains st = false :=
      contains_false_of_not_mem _ _ hnv
    simp [set_ep_collection, hst, hemp, hnc, hnv]

/-- C5 witness: the amended statements at concrete inputs, one per error
class on the subject side. -/
theorem C5_witness :
    set_sub_collection fxState fxE fxO1 fxSubZero = (.error .attributeError, []) ∧
    set_sub_collection fxState fxE fxO1 fxSubSix = (.error .valueError, []) :=
  ⟨(C5_validation_amended fxState fxE fxO1).1 fxSubZero (Or.inr rfl),
   (C5_validation_amended fxState fxE fxO1).2.1 fxSubSix 6 rfl (by decide)
     (by decide)⟩

/-- C8: for every collection, an authenticated remove issues the removal
GET, returns the check_response boolean of whatever response the server
gives, and clears the local c_status unconditionally, whether or not the
server-reported outcome is a success. -/
theorem C8_remove_clears_status_unconditionally (s : SessionState) (e : Extractor)
    (o : Oracle) (collection : BangumiCollection) (h1 : s.logged_in = true) :
    remove_collection s e o collection =
      ((.ok (check_response e (o (remove_request s collection))),
        [remove_request s collection]), clear_c_status collection) := by
  cases collection with
  | sub c => simp [remove_collection, remove_request, session_get, h1, clear_c_status]
  | ep c => simp [remove_collection, remove_request, session_get, h1, clear_c_status]

/-- C8 witness: a concrete remove whose simulated remote outcome is a
failure (404 and unparseable body) and whose local status is still
cleared. -/
theorem C8_witness :
    remove_collection fxState fxE fxO8 (.sub fxSub) =
      ((.ok (check_response fxE (fxO8 (remove_request fxState (.sub fxSub)))),
        [remove_request fxState (.sub fxSub)]), clear_c_status (.sub fxSub)) :=
  C8_remove_clears_status_unconditionally fxState fxE fxO8 (.sub fxSub) rfl

/-- C10: set_n_watched_eps rejects the wish status 1 with ValueError, and
otherwise rejects an unset watched count with AttributeError, both before
any network request (the wish check runs first, so it wins when both
conditions hold). -/
theorem C10_set_n_watched_validation (s : SessionState) (e : Extractor)
    (o : Oracle) (sub_collection : BangumiSubjectCollection) :
    (sub_collection.c_status = some 1 →
      set_n_watched_eps s e o sub_collection =
        ((.error .valueError, []), sub_collection)) ∧
    (¬(sub_collection.c_status = some 1) → sub_collection.n_watched_eps = none →
      set_n_watched_eps s e o sub_collection =
        ((.error .attributeError, []), sub_collection)) := by
  constructor
  · intro h
    simp [set_n_watched_eps, h]
  · intro h hn
    have hb : (sub_collection.c_status == some 1) = false := by simp [h]
    simp [set_n_watched_eps, hb, hn, h]

/-- C10 witness: both rejection branches at concrete inputs. -/
theorem C10_witness :
    set_n_watched_eps fxState fxE fxO1 fxSubWish =
      ((.error .valueError, []), fxSubWish) ∧
    set_n_watched_eps fxState fxE fxO1 fxSubNoN =
      ((.error .attributeError, []), fxSubNoN) :=
  ⟨(C10_set_n_watched_validation fxState fxE fxO1 fxSubWish).1 rfl,
   (C10_set_n_watched_validation fxState fxE fxO1 fxSubNoN).2 (by decide) rfl⟩

lemma isErr_map {ε α β : Type} (f : α → β) (x : Except ε α) :
    isErr (x.map f) = isErr x := by
  cases x <;> rfl

lemma bool_false_of_not_true {b : Bool} (h : ¬(b = true)) : b = false := by
  cases b
  · rfl
  · exact absurd rfl h

lemma nli_set_sub (s : SessionState) (e : Extractor) (o : Oracle)
    (c : BangumiSubjectCollection) (h : s.logged_in = false) :
    (set_sub_collection s e o c).2 = [] ∧
    isErr (set_sub_collection s e o c).1 = true := by
  cases hc : c.c_status with
  | none => simp [set_sub_collection, hc, isErr]
  | some v =>
    by_cases h0 : v = 0
    · simp [set_sub_collection, hc, h0, isErr]
    · by_cases hv : v ∈ VALID_C_STATUS_SUB
      · have hvc : VALID_C_STATUS_SUB.contains v = true :=
          List.elem_eq_true_of_mem hv
        simp [set_sub_collection, hc, h0, hvc, hv, session_post, h, isErr]
      · have hvc : VALID_C_STATUS_SUB.contains v = false :=
          contains_false_of_not_mem _ _ hv
        simp [set_sub_collection, hc, h0, hvc, hv, isErr]

lemma nli_swes (s : SessionState) (e : Extractor) (o : Oracle)
    (sub : BangumiSubjectCollection) (h : s.logged_in = false)
    (ep_colls : List EpColl) :
    (set_watched_eps_in_sub s e o sub ep_colls).1.2 = [] ∧
    isErr (set_watched_eps_in_sub s e o sub ep_colls).1.1 = true := by
  by_cases he : ep_colls.isEmpty = true
  · simp [set_watched_eps_in_sub, he, isErr]
  · have he' : ep_colls.isEmpty = false := bool_false_of_not_true he
    by_cases ha : (ep_colls.all fun x => decide (x ∈ sub.ep_collections)) = true
    · simp [set_watched_eps_in_sub, he', ha, session_post, h, isErr]
    · have ha' : (ep_colls.all fun x => decide (x ∈ sub.ep_collections)) = false :=
        bool_false_of_not_true ha
      simp [set_watched_eps_in_sub, he', ha', isErr]

lemma nli_set_ep (s : SessionState) (e : Extractor) (o : Oracle)
    (c : BangumiEpisodeCollection) (h : s.logged_in = false) :
    (set_ep_collection s e o c).trace = [] ∧
    isErr (set_ep_collection s e o c).result = true := by
  cases hc : c.c_status with
  | none => simp [set_ep_collection, hc, isErr]
  | some st =>
    by_cases hemp : st.isEmpty = true
    · simp [set_ep_collection, hc, hemp, isErr]
    · have hemp' : st.isEmpty = false := bool_false_of_not_true hemp
      by_cases hv : st ∈ VALID_C_STATUS_EP
      · have hvc : VALID_C_STATUS_EP.contains st = true :=
          List.elem_eq_true_of_mem hv
        by_cases hw : st = "watched_up_to"
        · subst hw
          cases hsub : c.sub_collection with
          | none => simp [set_ep_collection, hc, hemp', hvc, hv, hsub, isErr]
          | some sub =>
            have hs := nli_swes s e o sub h (get_ep_colls_up_to_this c sub)
            rw [sec_watched_up_to s e o c sub hc hsub]
            exact ⟨hs.1, hs.2⟩
        · have hwb : (st == "watched_up_to") = false := by simp [hw]
          simp [set_ep_collection, hc, hemp', hvc, hv, hwb, session_get, h, isErr]
      · have hvc : VALID_C_STATUS_EP.contains st = false :=
          contains_false_of_not_mem _ _ hv
        simp [set_ep_collection, hc, hemp', hvc, hv, isErr]

lemma nli_remove (s : SessionState) (e : Extractor) (o : Oracle)
    (c : BangumiCollection) (h : s.logged_in = false) :
    (remove_collection s e o c).1.2 = [] ∧
    isErr (remove_collection s e o c).1.1 = true := by
  cases c <;> simp [remove_collection, remove_request, session_get, h, isErr]

lemma nli_set_n (s : SessionState) (e : Extractor) (o : Oracle)
    (c : BangumiSubjectCollection) (h : s.logged_in = false) :
    (set_n_watched_eps s e o c).1.2 = [] ∧
    isErr (set_n_watched_eps s e o c).1.1 = true := by
  cases hb : (c.c_status == some 1) with
  | true => simp [set_n_watched_eps, hb, isErr]
  | false =>
    cases hn : c.n_watched_eps with
    | none => simp [set_n_watched_eps, hb, hn, isErr]
    | some n =>
      simp [set_n_watched_eps, hb, hn, set_n_watched_eps_post, session_post, h,
        isErr]

lemma nli_dummy (s : SessionState) (e : Extractor) (o : Oracle)
    (sub_type : String) (c_status : Nat) (user_id : Option String)
    (h : s.logged_in = false) :
    (get_dummy_collections s e o sub_type c_status user_id).2 = [] ∧
    isErr (get_dummy_collections s e o sub_type c_status user_id).1 = true := by
  by_cases ht : (["anime", "book", "game", "real"].contains sub_type) = true
  · by_cases hcs : ((List.range' 1 5).contains c_status) = true
    · simp [get_dummy_collections, ht, hcs, List.mem_of_elem_eq_true ht,
        List.mem_of_elem_eq_true hcs, session_get, h, isErr]
    · have hnm : c_status ∉ List.range' 1 5 :=
        fun hm => hcs (List.elem_eq_true_of_mem hm)
      have hcond : c_status = 0 ∨ 6 ≤ c_status := by
        simp [List.mem_range'_1] at hnm
        omega
      simp [get_dummy_collections, isErr, List.mem_of_elem_eq_true ht, hcond]
  · have hnm : sub_type ∉ (["anime", "book", "game", "real"] : List String) :=
      fun hm => ht (List.elem_eq_true_of_mem hm)
    simp only [List.mem_cons, List.mem_singleton, not_or] at hnm
    simp [get_dummy_collections, isErr, hnm]

/-- C7: every network call of the session is behind the same login guard:
while the session is not authenticated, the guarded GET, POST, and logout
raise NotLoggedInError with no traffic; every engine operation invoked in
that state issues no request and ends in a raised error; and no operation
ever moves a session into the authenticated state. -/
theorem C7_guarded_requires_login (s : SessionState) (e : Extractor) (o : Oracle)
    (h : s.logged_in = false) :
    (∀ url, session_get s o url = (.error .notLoggedInError, [])) ∧
    (∀ url data, session_post s o url data = (.error .notLoggedInError, [])) ∧
    (logout s o = ((.error .notLoggedInError, []), s)) ∧
    (∀ op : Op, (run_op s e o op).1.2 = [] ∧
      isErr (run_op s e o op).1.1 = true ∧
      ((run_op s e o op).2).logged_in = false) ∧
    (∀ (s2 : SessionState) (op : Op),
      ((run_op s2 e o op).2).logged_in = true → s2.logged_in = true) := by
  refine ⟨?_, ?_, ?_, ?_, ?_⟩
  · intro url
    simp [session_get, h]
  · intro url data
    simp [session_post, h]
  · simp [logout, h]
  · intro op
    cases op with
    | setSubColl c =>
      have hh := nli_set_sub s e o c h
      exact ⟨hh.1, by rw [run_op, isErr_map]; exact hh.2, h⟩
    | setEpColl c =>
      have hh := nli_set_ep s e o c h
      exact ⟨hh.1, by rw [run_op, isErr_map]; exact hh.2, h⟩
    | removeColl c =>
      have hh := nli_remove s e o c h
      exact ⟨hh.1, by rw [run_op, isErr_map]; exact hh.2, h⟩
    | setNWatched c =>
      have hh := nli_set_n s e o c h
      exact ⟨hh.1, by rw [run_op, isErr_map]; exact hh.2, h⟩
    | getDummy t cs u =>
      have hh := nli_dummy s e o t cs u h
      exact ⟨hh.1, by rw [run_op, isErr_map]; exact hh.2, h⟩
    | doLogout =>
      refine ⟨?_, ?_, ?_⟩ <;> simp [run_op, logout, h, isErr]
  · intro s2 op
    cases op with
    | setSubColl c => intro hh; exact hh
    | setEpColl c => intro hh; exact hh
    | removeColl c => intro hh; exact hh
    | setNWatched c => intro hh; exact hh
    | getDummy t cs u => intro hh; exact hh
    | doLogout =>
      intro hh
      by_cases hl : s2.logged_in = true
      · exact hl
      · have hl' := bool_false_of_not_true hl
        simp [run_op, logout, hl'] at hh

/-- C7 witness: the guarded GET at a concrete logged-out state. -/
theorem C7_witness :
    session_get fxStateOut fxO1 ("http://bgm.tv/subject/7") =
      (.error .notLoggedInError, []) :=
  (C7_guarded_requires_login fxStateOut fxE fxO1 rfl).1
    ("http://bgm.tv/subject/7")

lemma page_200 (s : SessionState) (e : Extractor) (o : Oracle)
    (url : String) (p c_status : Nat) (hli : s.logged_in = true)
    (h200 : (o (dummy_page_request url p)).status_code = 200)
    (items : List String)
    (hit : e.dummy_items_from_html (o (dummy_page_request url p)).text = some items) :
    get_dummy_colls_on_page s e o url p c_status =
      (.ok (items.map fun i => ⟨i, c_status⟩), [dummy_page_request url p]) := by
  simp only [dummy_page_request] at h200 hit
  simp [get_dummy_colls_on_page, session_get, hli, h200, hit, dummy_page_request]

lemma page_fail (s : SessionState) (e : Extractor) (o : Oracle)
    (url : String) (p c_status : Nat) (hli : s.logged_in = true)
    (h200 : ¬((o (dummy_page_request url p)).status_code = 200)) :
    get_dummy_colls_on_page s e o url p c_status =
      (.error .requestFailedError, [dummy_page_request url p]) := by
  have hb : ((o (dummy_page_request url p)).status_code != 200) = true := by
    simpa [bne_iff_ne] using h200
  simp only [dummy_page_request] at hb
  simp [get_dummy_colls_on_page, session_get, hli, hb, dummy_page_request]

lemma loop_ok (s : SessionState) (e : Extractor) (o : Oracle)
    (url : String) (c_status : Nat) (hli : s.logged_in = true) :
    ∀ ps : List Nat,
      (∀ p ∈ ps, (o (dummy_page_request url p)).status_code = 200 ∧
        (e.dummy_items_from_html
          (o (dummy_page_request url p)).text).isSome = true) →
      dummy_pages_loop s e o url c_status ps =
        (.ok (pages_concat (fun p =>
            ((e.dummy_items_from_html
                (o (dummy_page_request url p)).text).getD []).map
              (fun i => ⟨i, c_status⟩)) ps),
         ps.map (dummy_page_request url)) := by
  intro ps
  induction ps with
  | nil => intro _; rfl
  | cons p rest ih =>
    intro hall
    have hp := hall p (List.mem_cons_self p rest)
    obtain ⟨items, hit⟩ := Option.isSome_iff_exists.mp hp.2
    have hpage := page_200 s e o url p c_status hli hp.1 items hit
    have hrest := ih (fun q hq => hall q (List.mem_cons_of_mem p hq))
    simp [dummy_pages_loop, hpage, hrest, pages_concat, hit]

lemma loop_fail (s : SessionState) (e : Extractor) (o : Oracle)
    (url : String) (c_status : Nat) (hli : s.logged_in = true) :
    ∀ ps : List Nat,
      (∀ p ∈ ps, (o (dummy_page_request url p)).status_code = 200 →
        (e.dummy_items_from_html
          (o (dummy_page_request url p)).text).isSome = true) →
      (∃ p ∈ ps, ¬((o (dummy_page_request url p)).status_code = 200)) →
      (dummy_pages_loop s e o url c_status ps).1 = .error .requestFailedError := by
  intro ps
  induction ps with
  | nil =>
    intro _ hex
    simp at hex
  | cons p rest ih =>
    intro hall hex
    by_cases hp : (o (dummy_page_request url p)).status_code = 200
    · obtain ⟨items, hit⟩ := Option.isSome_iff_exists.mp
        (hall p (List.mem_cons_self p rest) hp)
      have hpage := page_200 s e o url p c_status hli hp items hit
      have hex2 : ∃ q ∈ rest, ¬((o (dummy_page_request url q)).status_code = 200) := by
        rcases hex with ⟨q, hq, hqn⟩
        rcases List.mem_cons.mp hq with rfl | hq2
        · exact absurd hp hqn
        · exact ⟨q, hq2, hqn⟩
      have hrest := ih (fun q hq => hall q (List.mem_cons_of_mem p hq)) hex2
      rcases hloop : dummy_pages_loop s e o url c_status rest with ⟨res, tr2⟩
      rw [hloop] at hrest
      simp at hrest
      subst hrest
      simp [dummy_pages_loop, hpage, hloop]
    · have hpage := page_fail s e o url p c_status hli hp
      simp [dummy_pages_loop, hpage]

/-- C9: a valid, authenticated listing call fetches the discovered pages
1 through n in increasing order and returns the concatenation of every
page's extracted entries in page order; and whenever any page in that
range answers with a non-200 transport status (all pages before it being
parseable), the whole call fails with RequestFailedError and returns no
result at all. -/
theorem C9_pagination_concat_or_abort (s : SessionState) (e : Extractor)
    (o : Oracle) (sub_type : String) (c_status : Nat) (user_id : Option String)
    (n : Nat)
    (hli : s.logged_in = true)
    (ht : (["anime", "book", "game", "real"].contains sub_type) = true)
    (hcs : ((List.range' 1 5).contains c_status) = true)
    (hp : e.n_pages_from_html
        (o (.get (dummy_list_url s sub_type user_id c_status))).text = some n) :
    ((∀ p ∈ List.range' 1 n,
        (o (dummy_page_request (dummy_list_url s sub_type user_id c_status) p)).status_code = 200 ∧
        (e.dummy_items_from_html
          (o (dummy_page_request (dummy_list_url s sub_type user_id c_status) p)).text).isSome = true) →
      get_dummy_collections s e o sub_type c_status user_id =
        (.ok (pages_concat (fun p =>
            ((e.dummy_items_from_html
                (o (dummy_page_request (dummy_list_url s sub_type user_id c_status) p)).text).getD []).map
              (fun i => ⟨i, c_status⟩)) (List.range' 1 n)),
         .get (dummy_list_url s sub_type user_id c_status) ::
           (List.range' 1 n).map
             (dummy_page_request (dummy_list_url s sub_type user_id c_status)))) ∧
    ((∀ p ∈ List.range' 1 n,
        (o (dummy_page_request (dummy_list_url s sub_type user_id c_status) p)).status_code = 200 →
        (e.dummy_items_from_html
          (o (dummy_page_request (dummy_list_url s sub_type user_id c_status) p)).text).isSome = true) →
      (∃ p ∈ List.range' 1 n,
        ¬((o (dummy_page_request (dummy_list_url s sub_type user_id c_status) p)).status_code = 200)) →
      (get_dummy_collections s e o sub_type c_status user_id).1 =
        .error .requestFailedError) := by
  have ht2 : sub_type ∈ ["anime", "book", "game", "real"] :=
    List.mem_of_elem_eq_true ht
  have hcs2 : c_status ∈ List.range' 1 5 := List.mem_of_elem_eq_true hcs
  constructor
  · intro hall
    have hloop := loop_ok s e o (dummy_list_url s sub_type user_id c_status)
      c_status hli (List.range' 1 n) hall
    simp [get_dummy_collections, ht, ht2, hcs, hcs2, session_get, hli, hp, hloop]
  · intro hall hex
    have hloop := loop_fail s e o (dummy_list_url s sub_type user_id c_status)
      c_status hli (List.range' 1 n) hall hex
    rcases hl2 : dummy_pages_loop s e o (dummy_list_url s sub_type user_id c_status)
        c_status (List.range' 1 n) with ⟨res, tr2⟩
    rw [hl2] at hloop
    simp at hloop
    subst hloop
    simp [get_dummy_collections, ht, ht2, hcs, hcs2, session_get, hli, hp, hl2]

/-- C9 witness: the concrete two-page listing, all pages parseable and
answered with 200. -/
theorem C9_witness :
    get_dummy_collections fxState fxE fxO9 ("anime") 3 none =
      (.ok (pages_concat (fun p =>
          ((fxE.dummy_items_from_html
              (fxO9 (dummy_page_request (dummy_list_url fxState ("anime") none 3) p)).text).getD []).map
            (fun i => ⟨i, 3⟩)) (List.range' 1 2)),
       .get (dummy_list_url fxState ("anime") none 3) ::
         (List.range' 1 2).map
           (dummy_page_request (dummy_list_url fxState ("anime") none 3))) :=
  (C9_pagination_concat_or_abort fxState fxE fxO9 ("anime") 3 none 2 rfl
    (by decide) (by decide) (by decide)).1 (by decide)

/-- C4 witness: the single-episode conclusion of the amended statement at
the concrete failed-write run. -/
theorem C4_witness :
    (set_ep_collection fxState fxE fxO4 fxT4).sub_coll =
      some { fxSub with n_watched_eps := some 7 } :=
  (C4_fresh_parse_amended fxState fxE fxO4).1 fxT4 fxSub ("watched") 7 rfl rfl
    (by decide) (by decide) (by decide) rfl (by decide)

end Bgmcli
